import Mathlib

/-!
# Shallow embedding of the ulroy-python client core

This file embeds the request-execution and task-polling core of the
`ulroy` Python client library in Lean 4 and proves properties of it.

Embedded source functions:
* `BaseClient.__init__` / `BaseClient._build_url` (src/ulroy/base.py) —
  URL construction with slash normalization.
* `BaseClient._handle_response` (src/ulroy/base.py) — response
  normalization into a parsed body or an `APIError`.
* `UlroyClient._request` / `AsyncUlroyClient._request`
  (src/ulroy/sync.py, src/ulroy/async_client.py) — the retry loop.
  The two functions are textually identical in structure (same closed-client
  check, the same `for attempt in range(self.max_retries)` loop, the same
  `except (httpx.RequestError, APIError)` clause), so a single Lean
  function embeds both.
* `poll_task_status_sync` / `poll_task_status_async`
  (src/ulroy/helpers.py) — the two task pollers.
* `wait_for_completion` (src/ulroy/helpers/sync_helpers.py) — the second
  synchronous poller.

Network interaction is modelled by an environment: a function from the
attempt (or iteration) number to the outcome the network produces at that
point.  Wall-clock readings are modelled as a function from the iteration
number to the elapsed time observed at that iteration's `time.time()`
call.  Exceptions are modelled as explicit result constructors.
-/

namespace Ulroy

/-- JSON values, the result of `response.json()` in the Python source.
Objects are association lists with (as in a Python `dict`) at most one
binding per key relevant to lookup; `lookup` returns the first binding. -/
inductive JValue where
  | str : String → JValue
  | num : Int → JValue
  | bool : Bool → JValue
  | null : JValue
  | arr : List JValue → JValue
  | obj : List (String × JValue) → JValue

/-- `fields.get(key, default)` on a Python dict: first binding for `key`,
or `default` when absent. -/
def jget (fields : List (String × JValue)) (key : String) (default : JValue) : JValue :=
  match fields.lookup key with
  | some v => v
  | none => default

/-- A raw HTTP response as the client sees it: the status code, the result
of attempting to parse the body as JSON (`none` models `response.json()`
raising `ValueError`), and the raw body text (`response.text`). -/
structure HttpResponse where
  status_code : Nat
  json? : Option JValue
  text : String

/-- Outcome of `BaseClient._handle_response` (src/ulroy/base.py:49-59).
`ok` is the returned parsed body; `apiError` is a raised
`APIError(status_code, message)`; `parseError` is the `ValueError` that
`response.json()` raises on a success status with an unparseable body;
`attrError` is the `AttributeError` raised by `error_data.get` when the
error body parses to a non-dict JSON value. -/
inductive HandleResult where
  | ok : JValue → HandleResult
  | apiError : Nat → JValue → HandleResult
  | parseError : HandleResult
  | attrError : HandleResult

/-- `BaseClient._handle_response` (src/ulroy/base.py:49-59):
status ≥ 400 raises `APIError(status, message)` where `message` is the
body's `"message"` field (default `"Unknown error"`) when the body parses
as a JSON dict, else `response.text or "Unknown error"` when the body does
not parse; status < 400 returns `response.json()`. -/
def handle_response (r : HttpResponse) : HandleResult :=
  if 400 ≤ r.status_code then
    match r.json? with
    | some (JValue.obj fields) =>
        HandleResult.apiError r.status_code (jget fields "message" (JValue.str "Unknown error"))
    | some _ => HandleResult.attrError
    | none =>
        HandleResult.apiError r.status_code
          (JValue.str (if r.text = "" then "Unknown error" else r.text))
  else
    match r.json? with
    | some d => HandleResult.ok d
    | none => HandleResult.parseError

/-! ## The retry loop of `_request` -/

/-- What the network does on one attempt: `transportError` models
`httpx.RequestError` raised by `self._client.request(...)`; `response`
models a response being returned. -/
inductive AttemptOutcome where
  | transportError : String → AttemptOutcome
  | response : HttpResponse → AttemptOutcome

/-- An exception escaping `_request`. `transport` is `httpx.RequestError`;
`api` is `APIError`; `valueError` / `attributeError` come from
`_handle_response` on malformed bodies; `runtimeClosed` is the
`RuntimeError("Client is closed")`. -/
inductive ReqException where
  | transport : String → ReqException
  | api : Nat → JValue → ReqException
  | valueError : ReqException
  | attributeError : ReqException
  | runtimeClosed : ReqException

/-- Result of one attempt body: `return self._handle_response(response)`
on a response, or the raised exception. -/
inductive AttemptResult where
  | ok : JValue → AttemptResult
  | exn : ReqException → AttemptResult

/-- One iteration of the `for attempt in range(self.max_retries)` body:
issue the network call and normalize the response. -/
def attemptStep (o : AttemptOutcome) : AttemptResult :=
  match o with
  | AttemptOutcome.transportError e => AttemptResult.exn (ReqException.transport e)
  | AttemptOutcome.response r =>
    match handle_response r with
    | HandleResult.ok d => AttemptResult.ok d
    | HandleResult.apiError s m => AttemptResult.exn (ReqException.api s m)
    | HandleResult.parseError => AttemptResult.exn ReqException.valueError
    | HandleResult.attrError => AttemptResult.exn ReqException.attributeError

/-- The `except (httpx.RequestError, APIError)` clause: which exceptions
the retry loop catches. -/
def retryable : ReqException → Bool
  | ReqException.transport _ => true
  | ReqException.api _ _ => true
  | _ => false

/-- Overall result of `_request`: a returned parsed body, a raised
exception, or the implicit `return None` when the loop body never runs. -/
inductive ReqResult where
  | ok : JValue → ReqResult
  | exn : ReqException → ReqResult
  | noneReturn : ReqResult

/-- The retry loop of `UlroyClient._request` (src/ulroy/sync.py:59-72) and
`AsyncUlroyClient._request` (src/ulroy/async_client.py:55-68), from loop
index `attempt` on.  `env i` is what the network does on attempt `i`.
Returns the result together with the number of network calls issued.
A retryable exception is re-raised when `attempt == self.max_retries - 1`,
otherwise the loop continues; a non-retryable exception propagates at
once; falling off the loop returns `None`. -/
def request_from (env : Nat → AttemptOutcome) (max_retries : Nat) (attempt : Nat) :
    ReqResult × Nat :=
  if _h : attempt < max_retries then
    match attemptStep (env attempt) with
    | AttemptResult.ok d => (ReqResult.ok d, 1)
    | AttemptResult.exn e =>
      if retryable e then
        if attempt = max_retries - 1 then (ReqResult.exn e, 1)
        else
          let rest := request_from env max_retries (attempt + 1)
          (rest.1, rest.2 + 1)
      else (ReqResult.exn e, 1)
  else (ReqResult.noneReturn, 0)
termination_by max_retries - attempt
decreasing_by omega

/-- Client state relevant to the closed-client check: whether `_client`
is set (not `None`). -/
structure ClientState where
  client_set : Bool
deriving DecidableEq, Repr

/-- `UlroyClient.close` (src/ulroy/sync.py:38-42) /
`AsyncUlroyClient.close` (src/ulroy/async_client.py:34-38): releases the
transport and sets `_client = None`. -/
def ClientState.close (st : ClientState) : ClientState :=
  { st with client_set := false }

/-- `_request` (src/ulroy/sync.py:44-72, src/ulroy/async_client.py:40-68):
first the closed-client check (`raise RuntimeError("Client is closed")`),
before any network call, then the retry loop from attempt 0.  Returns the
result and the number of network calls issued. -/
def ClientState.request (st : ClientState) (max_retries : Nat)
    (env : Nat → AttemptOutcome) : ReqResult × Nat :=
  if st.client_set then request_from env max_retries 0
  else (ReqResult.exn ReqException.runtimeClosed, 0)

/-! ## URL construction -/

/-- Remove every leading `'/'` from a character list: the effect of
Python's `lstrip("/")` on the underlying characters. -/
def dropSlashes : List Char → List Char
  | [] => []
  | c :: rest => if c = '/' then dropSlashes rest else c :: rest

/-- Python `s.lstrip("/")`. -/
def lstrip_slash (s : String) : String := String.mk (dropSlashes s.data)

/-- Python `s.rstrip("/")`: drop every trailing `'/'`. -/
def rstrip_slash (s : String) : String := String.mk (dropSlashes s.data.reverse).reverse

/-- `BaseClient.__init__` stores `base_url.rstrip("/")`
(src/ulroy/base.py:36) and `BaseClient._build_url` returns
`f"{self.base_url}/{endpoint.lstrip('/')}"` (src/ulroy/base.py:45-47).
This is their composition on a raw constructor-supplied `base_url`. -/
def build_url (base_url endpoint : String) : String :=
  rstrip_slash base_url ++ "/" ++ lstrip_slash endpoint

/-! ## Task pollers -/

/-- One task record in the `tasks` array returned by
`client.task.list_tasks()` (src/ulroy/helpers.py:97-98): its `"id"`,
`"status"` and optional `"error"` fields. -/
structure TaskRec where
  id : String
  status : String
  error : Option String
deriving DecidableEq, Repr

/-- Outcome of one call to `client.task.list_tasks()`: the accessor raises
a transport/API error (`raise`), or returns the `tasks` array. -/
inductive ListTasksOutcome where
  | raise : String → ListTasksOutcome
  | tasks : List TaskRec → ListTasksOutcome
deriving DecidableEq, Repr

/-- `next((t for t in tasks["tasks"] if t["id"] == task_id), None)`
(src/ulroy/helpers.py:98): first task with the given id, if any. -/
def findTask (l : List TaskRec) (task_id : String) : Option TaskRec :=
  l.find? (fun t => t.id = task_id)

/-- Result of `poll_task_status_sync` (src/ulroy/helpers.py:65-112):
the returned `TaskStatus`, the raised `TimeoutError`, the raised
`ValueError` for a missing task, the raised task-failure `Exception`
carrying the server-reported reason, or an uncaught exception from the
status accessor itself (the sync poller has no handler for those). -/
inductive SyncPollResult where
  | result : TaskRec → SyncPollResult
  | timeoutErr : SyncPollResult
  | notFoundErr : SyncPollResult
  | taskFailedErr : String → SyncPollResult
  | accessorRaise : String → SyncPollResult
deriving DecidableEq, Repr

/-- `poll_task_status_sync` (src/ulroy/helpers.py:89-112).  `elapsed i` is
the value of `time.time() - start_time` observed at iteration `i`'s check;
`fetch i` is what `client.task.list_tasks()` does at iteration `i`.
The extra `Nat` arguments are fuel (the loop itself is unbounded; `none`
means it is still polling after `fuel` iterations), the iteration index,
and the count of status fetches issued so far; the returned `Nat` is the
total number of status fetches.  Loop body, in source order: timeout check
first (`time.time() - start_time > timeout` raises `TimeoutError` before
fetching), then the fetch, the missing-task check, the terminal-status
check (`failed` with `raise_on_error` raises
`Exception(f"Task .. failed: {task.get('error', 'Unknown error')}")`),
else sleep and repeat. -/
def poll_task_status_sync (task_id : String) (timeout : Nat) (raise_on_error : Bool)
    (elapsed : Nat → Nat) (fetch : Nat → ListTasksOutcome) :
    Nat → Nat → Nat → Option (SyncPollResult × Nat)
  | 0, _, _ => none
  | fuel + 1, i, nf =>
    if timeout < elapsed i then some (SyncPollResult.timeoutErr, nf)
    else
      match fetch i with
      | ListTasksOutcome.raise e => some (SyncPollResult.accessorRaise e, nf + 1)
      | ListTasksOutcome.tasks l =>
        match findTask l task_id with
        | none => some (SyncPollResult.notFoundErr, nf + 1)
        | some t =>
          if t.status = "completed" ∨ t.status = "failed" then
            if t.status = "failed" ∧ raise_on_error then
              some (SyncPollResult.taskFailedErr (t.error.getD "Unknown error"), nf + 1)
            else some (SyncPollResult.result t, nf + 1)
          else
            poll_task_status_sync task_id timeout raise_on_error elapsed fetch fuel (i + 1) (nf + 1)

/-- Outcome of one `get_status(task_id)` call inside `wait_for_completion`
(src/ulroy/helpers/sync_helpers.py:74-77): the underlying `client.get`
raises, or a `TaskStatus` is returned. -/
inductive GetStatusOutcome where
  | raise : String → GetStatusOutcome
  | status : TaskRec → GetStatusOutcome
deriving DecidableEq, Repr

/-- Result of `wait_for_completion` (src/ulroy/helpers/sync_helpers.py:79-88):
the returned terminal `TaskStatus` (returned as-is, `failed` included —
this poller has no `raise_on_error`), a raised `TimeoutError`, or an
uncaught exception from the accessor. -/
inductive WaitResult where
  | result : TaskRec → WaitResult
  | timeoutErr : WaitResult
  | accessorRaise : String → WaitResult
deriving DecidableEq, Repr

/-- `wait_for_completion` (src/ulroy/helpers/sync_helpers.py:79-88).
Loop body, in source order: fetch the status FIRST (`get_status`), return
it when terminal, only THEN check `time.time() - start_time > timeout`,
then sleep and repeat.  Arguments as in `poll_task_status_sync`; here
`elapsed i` is the `time.time() - start_time` reading taken after
iteration `i`'s fetch. -/
def wait_for_completion (timeout : Nat) (elapsed : Nat → Nat)
    (fetch : Nat → GetStatusOutcome) :
    Nat → Nat → Nat → Option (WaitResult × Nat)
  | 0, _, _ => none
  | fuel + 1, i, nf =>
    match fetch i with
    | GetStatusOutcome.raise e => some (WaitResult.accessorRaise e, nf + 1)
    | GetStatusOutcome.status t =>
      if t.status = "completed" ∨ t.status = "failed" then
        some (WaitResult.result t, nf + 1)
      else if timeout < elapsed i then some (WaitResult.timeoutErr, nf + 1)
      else wait_for_completion timeout elapsed fetch fuel (i + 1) (nf + 1)

/-- An exception surfaced by `poll_task_status_async`
(src/ulroy/helpers.py:114-189): `TimeoutError`, the missing-task
`ValueError`, the task-failure `Exception` with the server-reported
reason, or a transport/API error from the accessor (re-)raised as
`last_error`. -/
inductive PollExn where
  | timeoutE : PollExn
  | notFoundE : PollExn
  | taskFailedE : String → PollExn
  | accessE : String → PollExn
deriving DecidableEq, Repr

/-- Result of the `poll_task_status_async` loop: the returned terminal
`TaskStatus`, or a surfaced exception. -/
inductive AsyncPollResult where
  | ok : TaskRec → AsyncPollResult
  | error : PollExn → AsyncPollResult
deriving DecidableEq, Repr

/-- The outer `except Exception` handler of `poll_task_status_async`
(src/ulroy/helpers.py:178-182): when a `last_error` has been stored it is
raised in place of the exception that escaped the loop. -/
def preferLast (last_error : Option String) (x : PollExn) : PollExn :=
  match last_error with
  | some e => PollExn.accessE e
  | none => x

/-- The `while True` loop of `poll_task_status_async`
(src/ulroy/helpers.py:144-173), together with the outer handler of
lines 178-182.  Iteration order: timeout check (raised outside the inner
`try`, so it passes through `preferLast`), then the fetch; an accessor
error is caught by the inner `except (httpx.RequestError, APIError)`,
stored as `last_error`, and the loop continues after the sleep; the
missing-task `ValueError` and the task-failure `Exception` are not caught
by the inner handler and pass through `preferLast`; a terminal status is
returned.  Arguments as in `poll_task_status_sync`, plus the current
`last_error`. -/
def poll_async_loop (task_id : String) (timeout : Nat) (raise_on_error : Bool)
    (elapsed : Nat → Nat) (fetch : Nat → ListTasksOutcome) :
    Nat → Nat → Option String → Nat → Option (AsyncPollResult × Nat)
  | 0, _, _, _ => none
  | fuel + 1, i, last_error, nf =>
    if timeout < elapsed i then
      some (AsyncPollResult.error (preferLast last_error PollExn.timeoutE), nf)
    else
      match fetch i with
      | ListTasksOutcome.raise e =>
          poll_async_loop task_id timeout raise_on_error elapsed fetch
            fuel (i + 1) (some e) (nf + 1)
      | ListTasksOutcome.tasks l =>
        match findTask l task_id with
        | none => some (AsyncPollResult.error (preferLast last_error PollExn.notFoundE), nf + 1)
        | some t =>
          if t.status = "completed" ∨ t.status = "failed" then
            if t.status = "failed" ∧ raise_on_error then
              some (AsyncPollResult.error
                (preferLast last_error (PollExn.taskFailedE (t.error.getD "Unknown error"))),
                nf + 1)
            else some (AsyncPollResult.ok t, nf + 1)
          else
            poll_async_loop task_id timeout raise_on_error elapsed fetch
              fuel (i + 1) last_error (nf + 1)

/-- The transport-relevant state of an `AsyncUlroyClient`: whether
`_client` is set (not `None`), and whether the underlying
`httpx.AsyncClient` has been closed (`aclose` called on it). -/
structure AsyncClientState where
  client_set : Bool
  transport_closed : Bool
deriving DecidableEq, Repr

/-- The `finally` block of `poll_task_status_async`
(src/ulroy/helpers.py:183-189): if `client._client` is set, `aclose` it
(errors ignored).  Note it closes the transport but does NOT clear the
`_client` attribute. -/
def pollerCleanup (cl : AsyncClientState) : AsyncClientState :=
  if cl.client_set then { cl with transport_closed := true } else cl

/-- `poll_task_status_async` (src/ulroy/helpers.py:114-189) as a whole:
run the loop, then apply the `finally` cleanup to the client on every
exit path.  Returns the surfaced result, the number of status fetches,
and the client state after the poller returns. -/
def poll_task_status_async (cl : AsyncClientState) (task_id : String)
    (timeout : Nat) (raise_on_error : Bool) (elapsed : Nat → Nat)
    (fetch : Nat → ListTasksOutcome) (fuel : Nat) :
    Option (AsyncPollResult × Nat × AsyncClientState) :=
  match poll_async_loop task_id timeout raise_on_error elapsed fetch fuel 0 none 0 with
  | none => none
  | some (res, nf) => some (res, nf, pollerCleanup cl)

/-! ## Lemmas about the task pollers -/

/-- A `list_tasks` outcome that keeps a poller polling: the task list
arrives, the task is found, and its status is not terminal. -/
def continuesPolling (task_id : String) (o : ListTasksOutcome) : Prop :=
  ∃ l t, o = ListTasksOutcome.tasks l ∧ findTask l task_id = some t ∧
    t.status ≠ "completed" ∧ t.status ≠ "failed"

/-- A `get_status` outcome that keeps `wait_for_completion` polling:
a status arrives and it is not terminal. -/
def statusContinues (o : GetStatusOutcome) : Prop :=
  ∃ t, o = GetStatusOutcome.status t ∧ t.status ≠ "completed" ∧ t.status ≠ "failed"

/-- Running `poll_task_status_sync` across `k` non-terminal, in-time
iterations just advances the iteration index and the fetch count. -/
theorem poll_sync_shift (task_id : String) (timeout : Nat) (roe : Bool)
    (elapsed : Nat → Nat) (fetch : Nat → ListTasksOutcome) :
    ∀ k fuel j nf,
    (∀ i, i < k → elapsed (j + i) ≤ timeout ∧ continuesPolling task_id (fetch (j + i))) →
    poll_task_status_sync task_id timeout roe elapsed fetch (fuel + k) j nf
      = poll_task_status_sync task_id timeout roe elapsed fetch fuel (j + k) (nf + k) := by
  intro k
  induction k with
  | zero => intro fuel j nf _; rfl
  | succ k ih =>
    intro fuel j nf hb
    have h := hb 0 (by omega)
    rw [Nat.add_zero] at h
    obtain ⟨h0, l, t, hfet, hfind, hc, hf⟩ := h
    rw [show j + (k + 1) = j + 1 + k from by omega,
        show nf + (k + 1) = nf + 1 + k from by omega]
    show poll_task_status_sync task_id timeout roe elapsed fetch ((fuel + k) + 1) j nf = _
    simp only [poll_task_status_sync]
    rw [if_neg (not_lt.mpr h0)]
    simp only [hfet, hfind]
    rw [if_neg (not_or.mpr ⟨hc, hf⟩)]
    exact ih fuel (j + 1) (nf + 1) (fun i hi => by
      have h2 := hb (i + 1) (by omega)
      rw [show j + (i + 1) = j + 1 + i from by omega] at h2
      exact h2)

/-- Running `wait_for_completion` across `k` non-terminal, in-time
iterations just advances the iteration index and the fetch count. -/
theorem wait_shift (timeout : Nat) (elapsed : Nat → Nat) (gfetch : Nat → GetStatusOutcome) :
    ∀ k fuel j nf,
    (∀ i, i < k → statusContinues (gfetch (j + i)) ∧ elapsed (j + i) ≤ timeout) →
    wait_for_completion timeout elapsed gfetch (fuel + k) j nf
      = wait_for_completion timeout elapsed gfetch fuel (j + k) (nf + k) := by
  intro k
  induction k with
  | zero => intro fuel j nf _; rfl
  | succ k ih =>
    intro fuel j nf hb
    have h := hb 0 (by omega)
    rw [Nat.add_zero] at h
    obtain ⟨⟨t, hfet, hc, hf⟩, h0⟩ := h
    rw [show j + (k + 1) = j + 1 + k from by omega,
        show nf + (k + 1) = nf + 1 + k from by omega]
    show wait_for_completion timeout elapsed gfetch ((fuel + k) + 1) j nf = _
    simp only [wait_for_completion]
    simp only [hfet]
    rw [if_neg (not_or.mpr ⟨hc, hf⟩), if_neg (not_lt.mpr h0)]
    exact ih fuel (j + 1) (nf + 1) (fun i hi => by
      have h2 := hb (i + 1) (by omega)
      rw [show j + (i + 1) = j + 1 + i from by omega] at h2
      exact h2)

/-- Running the async poller loop across `k` non-terminal, in-time
iterations advances the indices and leaves `last_error` untouched. -/
theorem poll_async_shift (task_id : String) (timeout : Nat) (roe : Bool)
    (elapsed : Nat → Nat) (fetch : Nat → ListTasksOutcome) :
    ∀ k fuel j le nf,
    (∀ i, i < k → elapsed (j + i) ≤ timeout ∧ continuesPolling task_id (fetch (j + i))) →
    poll_async_loop task_id timeout roe elapsed fetch (fuel + k) j le nf
      = poll_async_loop task_id timeout roe elapsed fetch fuel (j + k) le (nf + k) := by
  intro k
  induction k with
  | zero => intro fuel j le nf _; rfl
  | succ k ih =>
    intro fuel j le nf hb
    have h := hb 0 (by omega)
    rw [Nat.add_zero] at h
    obtain ⟨h0, l, t, hfet, hfind, hc, hf⟩ := h
    rw [show j + (k + 1) = j + 1 + k from by omega,
        show nf + (k + 1) = nf + 1 + k from by omega]
    show poll_async_loop task_id timeout roe elapsed fetch ((fuel + k) + 1) j le nf = _
    simp only [poll_async_loop]
    rw [if_neg (not_lt.mpr h0)]
    simp only [hfet, hfind]
    rw [if_neg (not_or.mpr ⟨hc, hf⟩)]
    exact ih fuel (j + 1) le (nf + 1) (fun i hi => by
      have h2 := hb (i + 1) (by omega)
      rw [show j + (i + 1) = j + 1 + i from by omega] at h2
      exact h2)

/-- When the elapsed time exceeds the timeout, `poll_task_status_sync`
raises `TimeoutError` at once, without a further status fetch. -/
theorem poll_sync_timeout_now (task_id : String) (timeout : Nat) (roe : Bool)
    (elapsed : Nat → Nat) (fetch : Nat → ListTasksOutcome) (fuel j nf : Nat)
    (h : timeout < elapsed j) :
    poll_task_status_sync task_id timeout roe elapsed fetch (fuel + 1) j nf
      = some (SyncPollResult.timeoutErr, nf) := by
  simp only [poll_task_status_sync]
  rw [if_pos h]

/-- `wait_for_completion` fetches first; a non-terminal status followed by
an exceeded timeout raises `TimeoutError` only after that fetch. -/
theorem wait_timeout_now (timeout : Nat) (elapsed : Nat → Nat)
    (gfetch : Nat → GetStatusOutcome) (fuel j nf : Nat) (t : TaskRec)
    (hfet : gfetch j = GetStatusOutcome.status t)
    (ht1 : t.status ≠ "completed") (ht2 : t.status ≠ "failed")
    (h : timeout < elapsed j) :
    wait_for_completion timeout elapsed gfetch (fuel + 1) j nf
      = some (WaitResult.timeoutErr, nf + 1) := by
  simp only [wait_for_completion, hfet]
  rw [if_neg (not_or.mpr ⟨ht1, ht2⟩), if_pos h]

/-- One `poll_task_status_sync` iteration on a terminal status. -/
theorem poll_sync_terminal (task_id : String) (timeout : Nat) (roe : Bool)
    (elapsed : Nat → Nat) (fetch : Nat → ListTasksOutcome)
    (fuel j nf : Nat) (l : List TaskRec) (t : TaskRec)
    (hel : ¬ timeout < elapsed j)
    (hfet : fetch j = ListTasksOutcome.tasks l)
    (hfind : findTask l task_id = some t)
    (hterm : t.status = "completed" ∨ t.status = "failed") :
    poll_task_status_sync task_id timeout roe elapsed fetch (fuel + 1) j nf
      = if t.status = "failed" ∧ roe
        then some (SyncPollResult.taskFailedErr (t.error.getD "Unknown error"), nf + 1)
        else some (SyncPollResult.result t, nf + 1) := by
  simp only [poll_task_status_sync]
  rw [if_neg hel]
  simp only [hfet, hfind]
  rw [if_pos hterm]

/-- One async-poller iteration on an accessor failure: the inner handler
stores the error and the loop continues. -/
theorem poll_async_swallow_step (task_id : String) (timeout : Nat) (roe : Bool)
    (elapsed : Nat → Nat) (fetch : Nat → ListTasksOutcome)
    (fuel j : Nat) (le : Option String) (nf : Nat) (e : String)
    (hel : ¬ timeout < elapsed j)
    (hfet : fetch j = ListTasksOutcome.raise e) :
    poll_async_loop task_id timeout roe elapsed fetch (fuel + 1) j le nf
      = poll_async_loop task_id timeout roe elapsed fetch fuel (j + 1) (some e) (nf + 1) := by
  simp only [poll_async_loop]
  rw [if_neg hel]
  simp only [hfet]

/-- One async-poller iteration on a terminal status. -/
theorem poll_async_terminal (task_id : String) (timeout : Nat) (roe : Bool)
    (elapsed : Nat → Nat) (fetch : Nat → ListTasksOutcome)
    (fuel j : Nat) (le : Option String) (nf : Nat) (l : List TaskRec) (t : TaskRec)
    (hel : ¬ timeout < elapsed j)
    (hfet : fetch j = ListTasksOutcome.tasks l)
    (hfind : findTask l task_id = some t)
    (hterm : t.status = "completed" ∨ t.status = "failed") :
    poll_async_loop task_id timeout roe elapsed fetch (fuel + 1) j le nf
      = if t.status = "failed" ∧ roe
        then some (AsyncPollResult.error
            (preferLast le (PollExn.taskFailedE (t.error.getD "Unknown error"))), nf + 1)
        else some (AsyncPollResult.ok t, nf + 1) := by
  simp only [poll_async_loop]
  rw [if_neg hel]
  simp only [hfet, hfind]
  rw [if_pos hterm]

/-! ## Lemmas about the retry loop -/

/-- If every attempt from `a` to `N - 1` fails retryably, the loop runs
them all and re-raises the failure of attempt `N - 1`. -/
theorem request_from_all_fail (env : Nat → AttemptOutcome) (N : Nat) (e : ReqException) :
    ∀ k a, N - a = k + 1 → a < N →
    (∀ i, a ≤ i → i < N →
      ∃ ei, attemptStep (env i) = AttemptResult.exn ei ∧ retryable ei = true) →
    attemptStep (env (N - 1)) = AttemptResult.exn e →
    request_from env N a = (ReqResult.exn e, k + 1) := by
  intro k
  induction k with
  | zero =>
    intro a hk ha hfail hlast
    have haN : a = N - 1 := by omega
    subst haN
    obtain ⟨ei, hei, hri⟩ := hfail (N - 1) (le_refl _) (by omega)
    have hee : ei = e := by
      rw [hei] at hlast
      exact AttemptResult.exn.inj hlast
    subst hee
    rw [request_from, dif_pos ha, hei]
    simp [hri]
  | succ k ih =>
    intro a hk ha hfail hlast
    obtain ⟨ea, hea, hra⟩ := hfail a (le_refl _) ha
    have hne : a ≠ N - 1 := by omega
    rw [request_from, dif_pos ha, hea]
    simp only [hra, if_true, if_neg hne]
    rw [ih (a + 1) (by omega) (by omega) (fun i hi1 hi2 => hfail i (by omega) hi2) hlast]

/-- If attempts `a .. a + m - 1` fail retryably and attempt `a + m`
succeeds with `d`, the loop returns `d` after `m + 1` network calls. -/
theorem request_from_ok (env : Nat → AttemptOutcome) (N : Nat) (d : JValue) :
    ∀ m a, a + m < N →
    (∀ i, a ≤ i → i < a + m →
      ∃ ei, attemptStep (env i) = AttemptResult.exn ei ∧ retryable ei = true) →
    attemptStep (env (a + m)) = AttemptResult.ok d →
    request_from env N a = (ReqResult.ok d, m + 1) := by
  intro m
  induction m with
  | zero =>
    intro a ha _hfail hok
    have hok' : attemptStep (env a) = AttemptResult.ok d := by simpa using hok
    rw [request_from, dif_pos (by omega : a < N), hok']
  | succ m ih =>
    intro a ha hfail hok
    obtain ⟨ea, hea, hra⟩ := hfail a (le_refl _) (by omega)
    have hne : a ≠ N - 1 := by omega
    rw [request_from, dif_pos (by omega : a < N), hea]
    simp only [hra, if_true, if_neg hne]
    have hok' : attemptStep (env (a + 1 + m)) = AttemptResult.ok d := by
      rw [show a + 1 + m = a + (m + 1) from by omega]
      exact hok
    rw [ih (a + 1) (by omega) (fun i hi1 hi2 => hfail i (by omega) (by omega)) hok']

/-! ## Claim theorems: the request executor -/

/-- C1: for a client with `max_retries = N` (`N ≥ 1`) whose every attempt
fails with a transport failure or an API error, `_request` issues exactly
`N` network attempts and the exception that propagates is the failure of
attempt `N` (the last one), unchanged. -/
theorem request_all_attempts_fail (N : Nat) (env : Nat → AttemptOutcome) (e : ReqException)
    (hN : 1 ≤ N)
    (hfail : ∀ i, i < N →
      ∃ ei, attemptStep (env i) = AttemptResult.exn ei ∧ retryable ei = true)
    (hlast : attemptStep (env (N - 1)) = AttemptResult.exn e) :
    ClientState.request ⟨true⟩ N env = (ReqResult.exn e, N) := by
  have h := request_from_all_fail env N e (N - 1) 0 (by omega) (by omega)
    (fun i _ hi => hfail i hi) hlast
  show request_from env N 0 = _
  rw [h, show N - 1 + 1 = N from by omega]

/-- C1 witness: with `max_retries = 2` and both attempts raising transport
errors, exactly 2 attempts are made and the second error surfaces. -/
theorem request_all_attempts_fail_witness :
    ClientState.request ⟨true⟩ 2
        (fun i => AttemptOutcome.transportError (if i = 0 then "err1" else "err2"))
      = (ReqResult.exn (ReqException.transport "err2"), 2) :=
  request_all_attempts_fail 2 _ (ReqException.transport "err2") (by omega)
    (fun i _hi => ⟨ReqException.transport (if i = 0 then "err1" else "err2"), rfl, rfl⟩)
    (by rfl)

/-- C9: for a client with `max_retries = N`, a request that fails
retryably on attempts `1..k` (`k < N`) and succeeds on attempt `k + 1`
returns the successful attempt's normalized body and issues exactly
`k + 1` network attempts — none after the success. -/
theorem request_fail_then_succeed (N k : Nat) (env : Nat → AttemptOutcome) (d : JValue)
    (hk : k < N)
    (hfail : ∀ i, i < k →
      ∃ ei, attemptStep (env i) = AttemptResult.exn ei ∧ retryable ei = true)
    (hok : attemptStep (env k) = AttemptResult.ok d) :
    ClientState.request ⟨true⟩ N env = (ReqResult.ok d, k + 1) := by
  have h := request_from_ok env N d k 0 (by omega)
    (fun i _ hi => hfail i (by omega)) (by simpa using hok)
  show request_from env N 0 = _
  rw [h]

/-- C9 witness: `max_retries = 3`, a transport failure on attempt 1 and a
200 response on attempt 2: the parsed body is returned after 2 attempts. -/
theorem request_fail_then_succeed_witness :
    ClientState.request ⟨true⟩ 3
        (fun i => if i = 0 then AttemptOutcome.transportError "err1"
          else AttemptOutcome.response ⟨200, some (JValue.str "done"), ""⟩)
      = (ReqResult.ok (JValue.str "done"), 2) :=
  request_fail_then_succeed 3 1 _ (JValue.str "done") (by omega)
    (fun i hi => ⟨ReqException.transport "err1", by
        rw [show i = 0 from by omega]; rfl, rfl⟩)
    (by rfl)

/-- C2: every operation on a closed client fails with the closed-client
`RuntimeError`, and zero network attempts are made — the check precedes
all network activity. -/
theorem request_after_close (st : ClientState) (N : Nat) (env : Nat → AttemptOutcome) :
    (st.close).request N env = (ReqResult.exn ReqException.runtimeClosed, 0) := by
  simp [ClientState.request, ClientState.close]

/-- C10: a client constructed with `max_retries = 0` makes zero network
attempts on any request and falls off the retry loop, returning Python's
implicit `None` rather than a parsed body or a raised error. -/
theorem request_zero_retries (env : Nat → AttemptOutcome) :
    ClientState.request ⟨true⟩ 0 env = (ReqResult.noneReturn, 0) := by
  show request_from env 0 0 = _
  rw [request_from]
  simp

/-! ## Claim theorems: response normalization -/

/-- C3: response normalization.  Status < 400 returns the parsed body
as-is; status ≥ 400 raises `APIError` carrying the status code and a
message that is the body's `message` field when the body parses as a JSON
object, otherwise the raw response text when it is nonempty, otherwise
`"Unknown error"`. -/
theorem handle_response_normalization (r : HttpResponse) :
    (∀ d, r.status_code < 400 → r.json? = some d →
      handle_response r = HandleResult.ok d) ∧
    (∀ fields m, 400 ≤ r.status_code → r.json? = some (JValue.obj fields) →
      fields.lookup "message" = some m →
      handle_response r = HandleResult.apiError r.status_code m) ∧
    (400 ≤ r.status_code → r.json? = none → r.text ≠ "" →
      handle_response r = HandleResult.apiError r.status_code (JValue.str r.text)) ∧
    (400 ≤ r.status_code → r.json? = none → r.text = "" →
      handle_response r = HandleResult.apiError r.status_code (JValue.str "Unknown error")) := by
  refine ⟨?_, ?_, ?_, ?_⟩
  · intro d h hj
    have h4 : ¬ 400 ≤ r.status_code := by omega
    simp [handle_response, h4, hj]
  · intro fields m h hj hm
    simp [handle_response, h, hj, jget, hm]
  · intro h hj ht
    simp [handle_response, h, hj, ht]
  · intro h hj ht
    simp [handle_response, h, hj, ht]

/-- C3 witness: the four concrete examples.  200 with `{"a": 1}` returns
the parsed object; 404 with a `message` field raises APIError(404, "not
found"); 500 with unparseable body `"boom"` raises APIError(500, "boom");
500 with an empty body raises APIError(500, "Unknown error"). -/
theorem handle_response_normalization_witness :
    handle_response ⟨200, some (JValue.obj [("a", JValue.num 1)]), ""⟩
      = HandleResult.ok (JValue.obj [("a", JValue.num 1)]) ∧
    handle_response ⟨404, some (JValue.obj [("message", JValue.str "not found")]), ""⟩
      = HandleResult.apiError 404 (JValue.str "not found") ∧
    handle_response ⟨500, none, "boom"⟩
      = HandleResult.apiError 500 (JValue.str "boom") ∧
    handle_response ⟨500, none, ""⟩
      = HandleResult.apiError 500 (JValue.str "Unknown error") :=
  ⟨(handle_response_normalization _).1 _ (by decide) rfl,
   (handle_response_normalization _).2.1 _ _ (by decide) rfl (by rfl),
   (handle_response_normalization _).2.2.1 (by decide) rfl (by simp),
   (handle_response_normalization _).2.2.2 (by decide) rfl rfl⟩

/-! ## Claim theorems: URL construction -/

/-- The result of stripping leading slashes never starts with a slash. -/
theorem dropSlashes_head_ne (l : List Char) : (dropSlashes l).head? ≠ some '/' := by
  induction l with
  | nil => simp [dropSlashes]
  | cons c rest ih =>
    by_cases hc : c = '/'
    · simpa [dropSlashes, hc] using ih
    · simp [dropSlashes, hc]

/-- C8: for every `(base_url, endpoint)` pair, whatever leading or
trailing slashes either carries, the built URL is the stripped base, then
exactly one separating slash, then the stripped path — the character just
before the separator is not `'/'` and the character just after it is not
`'/'`. -/
theorem build_url_single_join_slash (base_url endpoint : String) :
    (build_url base_url endpoint).data
      = (rstrip_slash base_url).data ++ '/' :: (lstrip_slash endpoint).data ∧
    (rstrip_slash base_url).data.getLast? ≠ some '/' ∧
    (lstrip_slash endpoint).data.head? ≠ some '/' := by
  refine ⟨?_, ?_, ?_⟩
  · show (rstrip_slash base_url ++ "/" ++ lstrip_slash endpoint).data = _
    rw [String.data_append, String.data_append]
    simp
  · show ((dropSlashes base_url.data.reverse).reverse).getLast? ≠ some '/'
    rw [List.getLast?_reverse]
    exact dropSlashes_head_ne _
  · exact dropSlashes_head_ne _

/-! ## Claim theorems: the task pollers -/

/-- C4 (amended): the timing of the timeout check differs between the two
synchronous pollers.  In `poll_task_status_sync` (src/ulroy/helpers.py)
the elapsed-time check precedes each fetch, so when the elapsed time
exceeds the timeout at iteration `k` (after `k` in-time non-terminal
iterations) the `TimeoutError` is raised with exactly `k` status fetches —
none at the timed-out iteration.  In `wait_for_completion`
(src/ulroy/helpers/sync_helpers.py) the fetch precedes the check, so in
the same situation one more status fetch is issued after the timeout has
been exceeded: the `TimeoutError` surfaces only after `k + 1` fetches. -/
theorem pollers_timeout_check_order (task_id : String) (timeout : Nat) (roe : Bool)
    (elapsed : Nat → Nat) (fetch : Nat → ListTasksOutcome) (gfetch : Nat → GetStatusOutcome)
    (k : Nat) (t : TaskRec)
    (hk : timeout < elapsed k)
    (hb : ∀ i, i < k → elapsed i ≤ timeout ∧ continuesPolling task_id (fetch i))
    (hgb : ∀ i, i < k → statusContinues (gfetch i) ∧ elapsed i ≤ timeout)
    (hgk : gfetch k = GetStatusOutcome.status t)
    (ht1 : t.status ≠ "completed") (ht2 : t.status ≠ "failed") :
    poll_task_status_sync task_id timeout roe elapsed fetch (1 + k) 0 0
      = some (SyncPollResult.timeoutErr, k) ∧
    wait_for_completion timeout elapsed gfetch (1 + k) 0 0
      = some (WaitResult.timeoutErr, k + 1) := by
  constructor
  · rw [poll_sync_shift task_id timeout roe elapsed fetch k 1 0 0
      (fun i hi => by simpa using hb i hi)]
    simp only [Nat.zero_add]
    exact poll_sync_timeout_now task_id timeout roe elapsed fetch 0 k k hk
  · rw [wait_shift timeout elapsed gfetch k 1 0 0
      (fun i hi => by simpa using hgb i hi)]
    simp only [Nat.zero_add]
    exact wait_timeout_now timeout elapsed gfetch 0 k k t hgk ht1 ht2 hk

/-- C4 witness: timeout 0, elapsed time `i` at iteration `i`, always
`pending`: `poll_task_status_sync` times out after 1 fetch (iteration 1
makes none), `wait_for_completion` only after 2 fetches. -/
theorem pollers_timeout_check_order_witness :
    poll_task_status_sync "t1" 0 true (fun i => i)
        (fun _ => ListTasksOutcome.tasks [⟨"t1", "pending", none⟩]) (1 + 1) 0 0
      = some (SyncPollResult.timeoutErr, 1) ∧
    wait_for_completion 0 (fun i => i)
        (fun _ => GetStatusOutcome.status ⟨"t1", "pending", none⟩) (1 + 1) 0 0
      = some (WaitResult.timeoutErr, 1 + 1) :=
  pollers_timeout_check_order "t1" 0 true (fun i => i) _ _ 1 ⟨"t1", "pending", none⟩
    (by decide)
    (fun i hi => ⟨by simpa using Nat.lt_succ_iff.mp hi,
      ⟨[⟨"t1", "pending", none⟩], ⟨"t1", "pending", none⟩, rfl, by decide, by decide,
        by decide⟩⟩)
    (fun i hi => ⟨⟨⟨"t1", "pending", none⟩, rfl, by decide, by decide⟩,
      by simpa using Nat.lt_succ_iff.mp hi⟩)
    rfl (by decide) (by decide)

/-- C4 counterexample: in `wait_for_completion` with the timeout already
exceeded before any terminal status, a status fetch still occurs — the
claim's "no further status fetches" count of 0 is violated (one fetch). -/
theorem wait_fetch_after_timeout_cx :
    wait_for_completion 0 (fun _ => 1)
        (fun _ => GetStatusOutcome.status ⟨"t1", "pending", none⟩) 5 0 0
      = some (WaitResult.timeoutErr, 1) ∧
    wait_for_completion 0 (fun _ => 1)
        (fun _ => GetStatusOutcome.status ⟨"t1", "pending", none⟩) 5 0 0
      ≠ some (WaitResult.timeoutErr, 0) :=
  ⟨by decide, by decide⟩

/-- C5 (amended): only the non-blocking poller tolerates a transient
accessor failure.  `poll_task_status_async` swallows a single transport
failure, retries, and can still return a later `completed` status; the
blocking `poll_task_status_sync` has no handler around its status fetch
and propagates the accessor's failure at once, aborting the wait. -/
theorem poller_transient_failure (task_id : String) (timeout : Nat) (roe : Bool)
    (elapsed : Nat → Nat) (fetch : Nat → ListTasksOutcome)
    (e : String) (l : List TaskRec) (t : TaskRec)
    (h0 : elapsed 0 ≤ timeout) (h1 : elapsed 1 ≤ timeout)
    (hf0 : fetch 0 = ListTasksOutcome.raise e)
    (hf1 : fetch 1 = ListTasksOutcome.tasks l)
    (hfind : findTask l task_id = some t)
    (hcomp : t.status = "completed") :
    poll_async_loop task_id timeout roe elapsed fetch (1 + 1) 0 none 0
      = some (AsyncPollResult.ok t, 2) ∧
    poll_task_status_sync task_id timeout roe elapsed fetch (1 + 1) 0 0
      = some (SyncPollResult.accessorRaise e, 1) := by
  constructor
  · rw [poll_async_swallow_step task_id timeout roe elapsed fetch 1 0 none 0 e
      (not_lt.mpr h0) hf0]
    rw [poll_async_terminal task_id timeout roe elapsed fetch 0 1 (some e) 1 l t
      (not_lt.mpr h1) hf1 hfind (Or.inl hcomp)]
    rw [if_neg (by simp [hcomp])]
  · simp only [poll_task_status_sync]
    rw [if_neg (not_lt.mpr h0)]
    simp only [hf0]

/-- C5 witness: a transport failure at iteration 0 and `completed` at
iteration 1: the async poller returns the completed status after 2
fetches, while the sync poller aborts after 1 fetch with that failure. -/
theorem poller_transient_failure_witness :
    poll_async_loop "t1" 300 true (fun _ => 0)
        (fun i => if i = 0 then ListTasksOutcome.raise "conn"
          else ListTasksOutcome.tasks [⟨"t1", "completed", none⟩]) (1 + 1) 0 none 0
      = some (AsyncPollResult.ok ⟨"t1", "completed", none⟩, 2) ∧
    poll_task_status_sync "t1" 300 true (fun _ => 0)
        (fun i => if i = 0 then ListTasksOutcome.raise "conn"
          else ListTasksOutcome.tasks [⟨"t1", "completed", none⟩]) (1 + 1) 0 0
      = some (SyncPollResult.accessorRaise "conn", 1) :=
  poller_transient_failure "t1" 300 true (fun _ => 0) _ "conn"
    [⟨"t1", "completed", none⟩] ⟨"t1", "completed", none⟩
    (by decide) (by decide) rfl rfl (by decide) rfl

/-- C5 counterexample: the blocking poller does NOT swallow a single
transient accessor failure — it surfaces it after one fetch instead of
polling on to the `completed` status the next fetch would deliver. -/
theorem poll_sync_not_swallow_cx :
    poll_task_status_sync "t1" 300 true (fun _ => 0)
        (fun i => if i = 0 then ListTasksOutcome.raise "conn"
          else ListTasksOutcome.tasks [⟨"t1", "completed", none⟩]) 5 0 0
      = some (SyncPollResult.accessorRaise "conn", 1) ∧
    poll_task_status_sync "t1" 300 true (fun _ => 0)
        (fun i => if i = 0 then ListTasksOutcome.raise "conn"
          else ListTasksOutcome.tasks [⟨"t1", "completed", none⟩]) 5 0 0
      ≠ some (SyncPollResult.result ⟨"t1", "completed", none⟩, 2) :=
  ⟨by decide, by decide⟩

/-- C6 (amended): when the observed status sequence ends in `failed` with
no transient accessor failure swallowed earlier in the wait, both pollers
end the loop there: with `raise_on_error = true` they raise the
task-failure error carrying the server-reported reason, with
`raise_on_error = false` they return the failed status object as-is.
(When the async poller HAS swallowed an earlier transient failure, it
raises that stored transport error instead — see the counterexample.) -/
theorem poller_failed_terminal (task_id : String) (timeout : Nat)
    (elapsed : Nat → Nat) (fetch : Nat → ListTasksOutcome)
    (k : Nat) (l : List TaskRec) (t : TaskRec) (reason : String)
    (hb : ∀ i, i < k → elapsed i ≤ timeout ∧ continuesPolling task_id (fetch i))
    (hel : elapsed k ≤ timeout)
    (hfet : fetch k = ListTasksOutcome.tasks l)
    (hfind : findTask l task_id = some t)
    (hfail : t.status = "failed")
    (herr : t.error = some reason) :
    poll_task_status_sync task_id timeout true elapsed fetch (1 + k) 0 0
      = some (SyncPollResult.taskFailedErr reason, k + 1) ∧
    poll_task_status_sync task_id timeout false elapsed fetch (1 + k) 0 0
      = some (SyncPollResult.result t, k + 1) ∧
    poll_async_loop task_id timeout true elapsed fetch (1 + k) 0 none 0
      = some (AsyncPollResult.error (PollExn.taskFailedE reason), k + 1) ∧
    poll_async_loop task_id timeout false elapsed fetch (1 + k) 0 none 0
      = some (AsyncPollResult.ok t, k + 1) := by
  refine ⟨?_, ?_, ?_, ?_⟩
  · rw [poll_sync_shift task_id timeout true elapsed fetch k 1 0 0
      (fun i hi => by simpa using hb i hi)]
    simp only [Nat.zero_add]
    rw [poll_sync_terminal task_id timeout true elapsed fetch 0 k k l t
      (not_lt.mpr hel) hfet hfind (Or.inr hfail)]
    rw [if_pos ⟨hfail, rfl⟩, herr]
    rfl
  · rw [poll_sync_shift task_id timeout false elapsed fetch k 1 0 0
      (fun i hi => by simpa using hb i hi)]
    simp only [Nat.zero_add]
    rw [poll_sync_terminal task_id timeout false elapsed fetch 0 k k l t
      (not_lt.mpr hel) hfet hfind (Or.inr hfail)]
    rw [if_neg (by simp)]
  · rw [poll_async_shift task_id timeout true elapsed fetch k 1 0 none 0
      (fun i hi => by simpa using hb i hi)]
    simp only [Nat.zero_add]
    rw [poll_async_terminal task_id timeout true elapsed fetch 0 k none k l t
      (not_lt.mpr hel) hfet hfind (Or.inr hfail)]
    rw [if_pos ⟨hfail, rfl⟩, herr]
    rfl
  · rw [poll_async_shift task_id timeout false elapsed fetch k 1 0 none 0
      (fun i hi => by simpa using hb i hi)]
    simp only [Nat.zero_add]
    rw [poll_async_terminal task_id timeout false elapsed fetch 0 k none k l t
      (not_lt.mpr hel) hfet hfind (Or.inr hfail)]
    rw [if_neg (by simp)]

/-- C6 witness: a task that is `failed` with server reason "boom" at the
first observation: raise-mode surfaces the reason, return-mode returns
the status object, in both pollers. -/
theorem poller_failed_terminal_witness :
    poll_task_status_sync "t1" 300 true (fun _ => 0)
        (fun _ => ListTasksOutcome.tasks [⟨"t1", "failed", some "boom"⟩]) (1 + 0) 0 0
      = some (SyncPollResult.taskFailedErr "boom", 0 + 1) ∧
    poll_task_status_sync "t1" 300 false (fun _ => 0)
        (fun _ => ListTasksOutcome.tasks [⟨"t1", "failed", some "boom"⟩]) (1 + 0) 0 0
      = some (SyncPollResult.result ⟨"t1", "failed", some "boom"⟩, 0 + 1) ∧
    poll_async_loop "t1" 300 true (fun _ => 0)
        (fun _ => ListTasksOutcome.tasks [⟨"t1", "failed", some "boom"⟩]) (1 + 0) 0 none 0
      = some (AsyncPollResult.error (PollExn.taskFailedE "boom"), 0 + 1) ∧
    poll_async_loop "t1" 300 false (fun _ => 0)
        (fun _ => ListTasksOutcome.tasks [⟨"t1", "failed", some "boom"⟩]) (1 + 0) 0 none 0
      = some (AsyncPollResult.ok ⟨"t1", "failed", some "boom"⟩, 0 + 1) :=
  poller_failed_terminal "t1" 300 (fun _ => 0) _ 0 [⟨"t1", "failed", some "boom"⟩]
    ⟨"t1", "failed", some "boom"⟩ "boom"
    (fun i hi => absurd hi (by omega)) (by decide) rfl (by decide) rfl rfl

/-- C6 counterexample: after a swallowed transient failure, the async
poller raises the stored transport error instead of a task-failure error
with the server-reported reason "boom". -/
theorem poll_async_failed_after_transient_cx :
    poll_async_loop "t1" 300 true (fun _ => 0)
        (fun i => if i = 0 then ListTasksOutcome.raise "conn"
          else ListTasksOutcome.tasks [⟨"t1", "failed", some "boom"⟩]) 5 0 none 0
      = some (AsyncPollResult.error (PollExn.accessE "conn"), 2) ∧
    poll_async_loop "t1" 300 true (fun _ => 0)
        (fun i => if i = 0 then ListTasksOutcome.raise "conn"
          else ListTasksOutcome.tasks [⟨"t1", "failed", some "boom"⟩]) 5 0 none 0
      ≠ some (AsyncPollResult.error (PollExn.taskFailedE "boom"), 2) :=
  ⟨by decide, by decide⟩

/-- C7 (amended): the blocking poller never touches the client's
transport, but the non-blocking poller's `finally` block closes the
client's underlying transport on every exit path whenever `_client` is
set — while leaving the `_client` attribute itself set. -/
theorem async_poller_closes_transport (cl : AsyncClientState) (task_id : String)
    (timeout : Nat) (roe : Bool) (elapsed : Nat → Nat) (fetch : Nat → ListTasksOutcome)
    (fuel nf : Nat) (res : AsyncPollResult) (cl' : AsyncClientState)
    (h : poll_task_status_async cl task_id timeout roe elapsed fetch fuel
          = some (res, nf, cl'))
    (hset : cl.client_set = true) :
    cl'.transport_closed = true ∧ cl'.client_set = true := by
  unfold poll_task_status_async at h
  cases hl : poll_async_loop task_id timeout roe elapsed fetch fuel 0 none 0 with
  | none => rw [hl] at h; exact absurd h (by simp)
  | some p =>
    obtain ⟨r2, n2⟩ := p
    rw [hl] at h
    simp only [Option.some.injEq, Prod.mk.injEq] at h
    obtain ⟨-, -, hcl⟩ := h
    subst hcl
    simp [pollerCleanup, hset]

/-- C7 witness: a poller run that immediately observes `completed` still
leaves the client with its transport closed and `_client` set. -/
theorem async_poller_closes_transport_witness :
    (AsyncClientState.mk true true).transport_closed = true ∧
    (AsyncClientState.mk true true).client_set = true :=
  async_poller_closes_transport ⟨true, false⟩ "t1" 300 true (fun _ => 0)
    (fun _ => ListTasksOutcome.tasks [⟨"t1", "completed", none⟩]) 3 1
    (AsyncPollResult.ok ⟨"t1", "completed", none⟩) ⟨true, true⟩ (by decide) rfl

/-- C7 counterexample: a successful async-poller run does NOT leave the
client's transport state unchanged — the `finally` block has closed it. -/
theorem async_poller_cleanup_cx :
    poll_task_status_async ⟨true, false⟩ "t1" 300 true (fun _ => 0)
        (fun _ => ListTasksOutcome.tasks [⟨"t1", "completed", none⟩]) 3
      = some (AsyncPollResult.ok ⟨"t1", "completed", none⟩, 1, ⟨true, true⟩) ∧
    (⟨true, true⟩ : AsyncClientState) ≠ ⟨true, false⟩ :=
  ⟨by decide, by decide⟩

end Ulroy
